import Mathlib

/-!
Shallow embedding of the net-reset connectivity watchdog
(src/arduino-reset/arduino-reset.ino).

The sketch is two cooperating non-blocking state machines driven by a
single loop: a system-state supervisor (`manageSystemState`,
`handleSuccess`) and a connectivity prober (`managePingProcess`), plus two
self-expiring pulse timers (`manageRecoveryPulse`, `managePingingPulse`).
All globals of the sketch become fields of the `Monitor` structure; the
Arduino `millis()` clock becomes the `now` parameter of each tick
function; `unsigned long` arithmetic (`now - timestamp`) becomes `wsub`,
subtraction modulo 2^32.  The external world (EthernetClient) is an
explicit per-tick input `NetEnv`: the result of `client.connect`, of
`client.available`, and the byte stream `client.readBytesUntil` would
read from.
-/

namespace NetReset

/-- State of `unsigned long` (32-bit) wraparound on AVR Arduino. -/
def MILLIS_MOD : Nat := 4294967296

/-- Wrap-safe unsigned subtraction: the value of the C expression
`now - timestamp` on `unsigned long` operands, i.e. subtraction
modulo 2^32. -/
def wsub (a b : Nat) : Nat :=
  (a % MILLIS_MOD + (MILLIS_MOD - b % MILLIS_MOD)) % MILLIS_MOD

/-- Timing configuration of the sketch (milliseconds). -/
def PING_INTERVAL : Nat := 30000

def FAILURE_THRESHOLD : Nat := 300000

def FAILURE_SIGNAL_DURATION : Nat := 60000

def FAILURE_COOLDOWN_DURATION : Nat := 300000

def RECOVERY_PULSE_DURATION : Nat := 5000

def PINGING_PULSE_DURATION : Nat := 1000

def HTTP_TIMEOUT : Nat := 10000

/-- A probe destination, `struct Target` of the sketch. -/
structure Target where
  server : String
  path : String
deriving DecidableEq, Repr

/-- The fixed target list of the sketch. -/
def targets : List Target :=
  [⟨"www.google.com", "/"⟩, ⟨"www.amazon.com", "/"⟩,
   ⟨"www.microsoft.com", "/"⟩, ⟨"www.cloudflare.com", "/"⟩]

/-- `numTargets = sizeof(targets)/sizeof(targets[0])`. -/
def numTargets : Nat := targets.length

/-- The supervisor's state enum. -/
inductive SystemState where
  | STATE_NORMAL
  | STATE_FAILED_SIGNAL
  | STATE_COOLDOWN
deriving DecidableEq, Repr

/-- The prober's state enum. -/
inductive PingState where
  | PING_IDLE
  | PING_CONNECTING
  | PING_SENDING
  | PING_READING
  | PING_DONE
deriving DecidableEq, Repr

/-- All mutable globals of the sketch: the two state enums, the target
rotation cursor, every timer, the two pulse flags, and the four output
pins (modelled as booleans, `true` = HIGH). -/
structure Monitor where
  currentState : SystemState
  pingState : PingState
  currentTargetIndex : Nat
  lastSuccessfulConnectionTime : Nat
  failureStateStartTime : Nat
  cooldownStateStartTime : Nat
  recoveryPulseStartTime : Nat
  pingingPulseStartTime : Nat
  pingStateStartTime : Nat
  pingTransactionStartTime : Nat
  recoveryPulseActive : Bool
  pingingPulseActive : Bool
  failureStatePin : Bool
  failureSignalPin : Bool
  recoverySignalPin : Bool
  pingingPin : Bool
deriving DecidableEq, Repr

/-- Per-tick behaviour of the external EthernetClient: what
`client.connect` returns, what `client.available` returns, and the
response byte stream a read would consume. -/
structure NetEnv where
  connectResult : Bool
  availResult : Bool
  response : List Char
deriving DecidableEq, Repr

/-- The transient result of one completed probe attempt. -/
structure ProbeOutcome where
  success : Bool
  latencyMs : Option Nat
deriving DecidableEq, Repr

/-- `client.readBytesUntil('\n', statusLine, sizeof(statusLine) - 1)`
with a 90-byte buffer: reads bytes from the stream until the terminator
(discarded) or until 89 bytes have been read. -/
def readBytesUntil (resp : List Char) : List Char :=
  (resp.takeWhile (fun c => c ≠ '\n')).take 89

/-- The bytes `strstr` can see of a C string: everything before the
first NUL byte. -/
def cstr (l : List Char) : List Char :=
  l.takeWhile (fun c => c ≠ (Char.ofNat 0))

/-- Pattern `pat` occurs at the start of `hay`. -/
def startsWithPat : List Char → List Char → Bool
  | [], _ => true
  | _ :: _, [] => false
  | p :: ps, h :: hs => p == h && startsWithPat ps hs

/-- Pattern `pat` occurs somewhere in `hay`: the semantics of
`strstr(hay, pat) != NULL`. -/
def hasSub (pat : List Char) : List Char → Bool
  | [] => startsWithPat pat []
  | h :: hs => startsWithPat pat (h :: hs) || hasSub pat hs

/-- The success judgment of the sketch:
`strstr(statusLine, "HTTP/1.1 2") != NULL || strstr(statusLine, "HTTP/1.1 3") != NULL`. -/
def statusOk (statusLine : List Char) : Bool :=
  hasSub ("HTTP/1.1 2".toList) (cstr statusLine) ||
  hasSub ("HTTP/1.1 3".toList) (cstr statusLine)

/-- `manageSystemState()`: transitions between NORMAL, FAILED_SIGNAL and
COOLDOWN, driving the two failure pins. -/
def manageSystemState (now : Nat) (st : Monitor) : Monitor :=
  match st.currentState with
  | .STATE_NORMAL =>
    if wsub now st.lastSuccessfulConnectionTime ≥ FAILURE_THRESHOLD then
      { st with currentState := .STATE_FAILED_SIGNAL,
                failureStateStartTime := now,
                failureStatePin := true,
                failureSignalPin := true }
    else st
  | .STATE_FAILED_SIGNAL =>
    if wsub now st.failureStateStartTime ≥ FAILURE_SIGNAL_DURATION then
      { st with currentState := .STATE_COOLDOWN,
                cooldownStateStartTime := now,
                failureSignalPin := false }
    else st
  | .STATE_COOLDOWN =>
    if wsub now st.cooldownStateStartTime ≥ FAILURE_COOLDOWN_DURATION then
      { st with currentState := .STATE_NORMAL,
                failureStatePin := false }
    else st

/-- `handleSuccess(duration)`: recovery logic for a successful probe.
Returns the updated state together with the outage duration the sketch
reports on the recovery path (`now - lastSuccessfulConnectionTime`,
computed before `lastSuccessfulConnectionTime` is overwritten). -/
def handleSuccess (duration : Nat) (now : Nat) (st : Monitor) :
    Monitor × Option Nat :=
  let _ := duration
  if st.currentState = .STATE_FAILED_SIGNAL ∨
     st.currentState = .STATE_COOLDOWN then
    let outageDuration := wsub now st.lastSuccessfulConnectionTime
    ({ st with currentState := .STATE_NORMAL,
               failureStatePin := false,
               failureSignalPin := false,
               recoveryPulseActive := true,
               recoverySignalPin := true,
               recoveryPulseStartTime := now,
               lastSuccessfulConnectionTime := now },
     some outageDuration)
  else
    ({ st with lastSuccessfulConnectionTime := now }, none)

/-- `managePingProcess()`: the non-blocking probe state machine.
Returns the updated state together with the outcome of the attempt on
the ticks where an attempt completes (enters PING_DONE). -/
def managePingProcess (now : Nat) (env : NetEnv) (st : Monitor) :
    Monitor × Option ProbeOutcome :=
  match st.pingState with
  | .PING_IDLE =>
    if st.currentState ≠ .STATE_FAILED_SIGNAL ∧
       wsub now st.pingStateStartTime ≥ PING_INTERVAL then
      ({ st with pingingPulseActive := true,
                 pingingPin := true,
                 pingingPulseStartTime := now,
                 pingState := .PING_CONNECTING,
                 pingStateStartTime := now,
                 pingTransactionStartTime := now }, none)
    else (st, none)
  | .PING_CONNECTING =>
    if env.connectResult then
      ({ st with pingState := .PING_SENDING, pingStateStartTime := now },
       none)
    else if wsub now st.pingStateStartTime ≥ HTTP_TIMEOUT then
      ({ st with pingState := .PING_DONE, pingStateStartTime := now },
       some ⟨false, none⟩)
    else (st, none)
  | .PING_SENDING =>
    ({ st with pingState := .PING_READING, pingStateStartTime := now },
     none)
  | .PING_READING =>
    if env.availResult then
      if statusOk (readBytesUntil env.response) then
        let st2 :=
          (handleSuccess (wsub now st.pingTransactionStartTime) now st).1
        ({ st2 with pingState := .PING_DONE, pingStateStartTime := now },
         some ⟨true, some (wsub now st.pingTransactionStartTime)⟩)
      else
        ({ st with pingState := .PING_DONE, pingStateStartTime := now },
         some ⟨false, none⟩)
    else if wsub now st.pingStateStartTime ≥ HTTP_TIMEOUT then
      ({ st with pingState := .PING_DONE, pingStateStartTime := now },
       some ⟨false, none⟩)
    else (st, none)
  | .PING_DONE =>
    ({ st with currentTargetIndex :=
                 (st.currentTargetIndex + 1) % numTargets,
               pingState := .PING_IDLE,
               pingStateStartTime := now }, none)

/-- `manageRecoveryPulse()`: auto-expires the recovery pulse after
`RECOVERY_PULSE_DURATION`. -/
def manageRecoveryPulse (now : Nat) (st : Monitor) : Monitor :=
  if st.recoveryPulseActive = true ∧
     wsub now st.recoveryPulseStartTime ≥ RECOVERY_PULSE_DURATION then
    { st with recoveryPulseActive := false, recoverySignalPin := false }
  else st

/-- `managePingingPulse()`: auto-expires the ping-activity pulse after
`PINGING_PULSE_DURATION`. -/
def managePingingPulse (now : Nat) (st : Monitor) : Monitor :=
  if st.pingingPulseActive = true ∧
     wsub now st.pingingPulseStartTime ≥ PINGING_PULSE_DURATION then
    { st with pingingPulseActive := false, pingingPin := false }
  else st

/-- One iteration of `loop()`: supervisor, then prober, then the two
pulse timers, all sharing the tick's clock reading `now`. -/
def loopTick (now : Nat) (env : NetEnv) (st : Monitor) : Monitor :=
  managePingingPulse now
    (manageRecoveryPulse now
      ((managePingProcess now env (manageSystemState now st)).1))

/-- The outcome the prober emits during the tick (if an attempt
completes on it). -/
def tickOutcome (now : Nat) (env : NetEnv) (st : Monitor) :
    Option ProbeOutcome :=
  (managePingProcess now env (manageSystemState now st)).2

/-- The state after `setup()` finishing at clock reading `t0`:
everything LOW/idle, `lastSuccessfulConnectionTime = t0`, and
`pingStateStartTime = t0 - PING_INTERVAL` so the first ping fires
immediately. -/
def initialState (t0 : Nat) : Monitor :=
  { currentState := .STATE_NORMAL,
    pingState := .PING_IDLE,
    currentTargetIndex := 0,
    lastSuccessfulConnectionTime := t0,
    failureStateStartTime := 0,
    cooldownStateStartTime := 0,
    recoveryPulseStartTime := 0,
    pingingPulseStartTime := 0,
    pingStateStartTime := wsub t0 PING_INTERVAL,
    pingTransactionStartTime := 0,
    recoveryPulseActive := false,
    pingingPulseActive := false,
    failureStatePin := false,
    failureSignalPin := false,
    recoverySignalPin := false,
    pingingPin := false }

/-- Run the loop over a sequence of ticks, each a clock reading paired
with that tick's transport behaviour. -/
def run (st : Monitor) : List (Nat × NetEnv) → Monitor
  | [] => st
  | (n, e) :: rest => run (loopTick n e st) rest

/-- The prober delivers a success outcome on this tick: it is in the
READING state, bytes are available, and the status line passes the
2xx/3xx check. -/
def deliversSuccess (st : Monitor) (e : NetEnv) : Bool :=
  decide (st.pingState = PingState.PING_READING) && e.availResult &&
    statusOk (readBytesUntil e.response)

/-- No tick of the run delivers a success outcome. -/
def noSuccessRun : Monitor → List (Nat × NetEnv) → Bool
  | _, [] => true
  | st, (n, e) :: rest =>
    !(deliversSuccess st e) && noSuccessRun (loopTick n e st) rest

/-- Number of ticks of the run on which the prober performs its
PING_DONE cleanup, i.e. the number of completed probe attempts. -/
def doneCount : Monitor → List (Nat × NetEnv) → Nat
  | _, [] => 0
  | st, (n, e) :: rest =>
    (if st.pingState = PingState.PING_DONE then 1 else 0) +
      doneCount (loopTick n e st) rest

/-- The fields `manageSystemState` reads and writes besides the pins:
state, last-success, failure-start and cooldown-start timers. -/
def supFields (st : Monitor) : SystemState × Nat × Nat × Nat :=
  (st.currentState, st.lastSuccessfulConnectionTime,
   st.failureStateStartTime, st.cooldownStateStartTime)

/-- The action of `manageSystemState` on its own fields. -/
def sysStep (now : Nat) :
    SystemState × Nat × Nat × Nat → SystemState × Nat × Nat × Nat
  | (.STATE_NORMAL, ls, fsst, csst) =>
    if wsub now ls ≥ FAILURE_THRESHOLD then
      (.STATE_FAILED_SIGNAL, ls, now, csst)
    else (.STATE_NORMAL, ls, fsst, csst)
  | (.STATE_FAILED_SIGNAL, ls, fsst, csst) =>
    if wsub now fsst ≥ FAILURE_SIGNAL_DURATION then
      (.STATE_COOLDOWN, ls, fsst, now)
    else (.STATE_FAILED_SIGNAL, ls, fsst, csst)
  | (.STATE_COOLDOWN, ls, fsst, csst) =>
    if wsub now csst ≥ FAILURE_COOLDOWN_DURATION then
      (.STATE_NORMAL, ls, fsst, csst)
    else (.STATE_COOLDOWN, ls, fsst, csst)

/-- Iterated `sysStep` over a sequence of clock readings. -/
def runSysF :
    SystemState × Nat × Nat × Nat → List Nat → SystemState × Nat × Nat × Nat
  | s, [] => s
  | s, n :: rest => runSysF (sysStep n s) rest

lemma wsub_eq_sub (a b : Nat) (hb : b ≤ a) (ha : a < MILLIS_MOD) :
    wsub a b = a - b := by
  simp only [wsub, MILLIS_MOD] at *
  omega

lemma supFields_manageSystemState (now : Nat) (st : Monitor) :
    supFields (manageSystemState now st) = sysStep now (supFields st) := by
  cases h : st.currentState <;>
    simp only [manageSystemState, supFields, sysStep, h] <;>
    split <;> simp [supFields, h]

lemma manageSystemState_pingState (now : Nat) (st : Monitor) :
    (manageSystemState now st).pingState = st.pingState := by
  cases h : st.currentState <;>
    simp only [manageSystemState, h] <;> split <;> rfl

lemma manageRecoveryPulse_supFields (now : Nat) (st : Monitor) :
    supFields (manageRecoveryPulse now st) = supFields st := by
  simp only [manageRecoveryPulse]
  split <;> rfl

lemma managePingingPulse_supFields (now : Nat) (st : Monitor) :
    supFields (managePingingPulse now st) = supFields st := by
  simp only [managePingingPulse]
  split <;> rfl

lemma managePingProcess_supFields (now : Nat) (e : NetEnv) (st : Monitor)
    (h : deliversSuccess st e = false) :
    supFields (managePingProcess now e st).1 = supFields st := by
  cases hps : st.pingState <;>
      simp only [managePingProcess, hps]
  case PING_IDLE => split <;> rfl
  case PING_CONNECTING => split
                          · rfl
                          · split <;> rfl
  case PING_SENDING => rfl
  case PING_READING =>
    split
    · split
      · rename_i havail hok
        simp [deliversSuccess, hps, havail, hok] at h
      · rfl
    · split <;> rfl
  case PING_DONE => rfl

lemma deliversSuccess_manageSystemState (now : Nat) (st : Monitor)
    (e : NetEnv) :
    deliversSuccess (manageSystemState now st) e = deliversSuccess st e := by
  simp only [deliversSuccess, manageSystemState_pingState]

lemma supFields_loopTick (now : Nat) (e : NetEnv) (st : Monitor)
    (h : deliversSuccess st e = false) :
    supFields (loopTick now e st) = sysStep now (supFields st) := by
  unfold loopTick
  rw [managePingingPulse_supFields, manageRecoveryPulse_supFields,
    managePingProcess_supFields now e (manageSystemState now st)
      (by rw [deliversSuccess_manageSystemState]; exact h),
    supFields_manageSystemState]

lemma supFields_run (l : List (Nat × NetEnv)) (st : Monitor)
    (h : noSuccessRun st l = true) :
    supFields (run st l) = runSysF (supFields st) (l.map Prod.fst) := by
  induction l generalizing st with
  | nil => rfl
  | cons p rest ih =>
    obtain ⟨n, e⟩ := p
    simp only [noSuccessRun, Bool.and_eq_true, Bool.not_eq_true'] at h
    show supFields (run (loopTick n e st) rest) = _
    rw [ih _ h.2, supFields_loopTick n e st h.1]
    rfl

lemma runSysF_append (s : SystemState × Nat × Nat × Nat) (l : List Nat)
    (n : Nat) : runSysF s (l ++ [n]) = sysStep n (runSysF s l) := by
  induction l generalizing s with
  | nil => rfl
  | cons m rest ih => exact ih (sysStep m s)

lemma runSysF_phases (l : List Nat) (hs : l.Pairwise (· < ·)) :
    ((∀ t ∈ l, t < 300000) →
      runSysF (.STATE_NORMAL, 0, 0, 0) l = (.STATE_NORMAL, 0, 0, 0)) ∧
    (300000 ∈ l → (∀ t ∈ l, t < 360000) →
      runSysF (.STATE_NORMAL, 0, 0, 0) l =
        (.STATE_FAILED_SIGNAL, 0, 300000, 0)) ∧
    (300000 ∈ l → 360000 ∈ l → (∀ t ∈ l, t < 660000) →
      runSysF (.STATE_NORMAL, 0, 0, 0) l =
        (.STATE_COOLDOWN, 0, 300000, 360000)) ∧
    (300000 ∈ l → 360000 ∈ l → 660000 ∈ l → (∀ t ∈ l, t ≤ 660000) →
      runSysF (.STATE_NORMAL, 0, 0, 0) l =
        (.STATE_NORMAL, 0, 300000, 360000)) := by
  induction l using List.reverseRecOn with
  | nil =>
    refine ⟨fun _ => rfl, fun h => absurd h (by simp),
      fun h _ => absurd h (by simp), fun h _ _ => absurd h (by simp)⟩
  | append_singleton l t ih =>
    rw [List.pairwise_append] at hs
    obtain ⟨hl, -, hlt⟩ := hs
    have hlt : ∀ x ∈ l, x < t := by
      intro x hx
      exact hlt x hx t (by simp)
    obtain ⟨ih1, ih2, ih3, ih4⟩ := ih hl
    have skip_normal : ∀ u < 300000,
        sysStep u ((.STATE_NORMAL : SystemState), 0, 0, 0) =
          (.STATE_NORMAL, 0, 0, 0) := by
      intro u hu
      have : wsub u 0 = u := by
        rw [wsub_eq_sub u 0 (Nat.zero_le u)
          (by simp only [MILLIS_MOD]; omega)]
        omega
      simp only [sysStep, this, FAILURE_THRESHOLD]
      rw [if_neg (by omega)]
    refine ⟨?_, ?_, ?_, ?_⟩
    · intro hb
      have hbl : ∀ x ∈ l, x < 300000 := fun x hx => hb x (by simp [hx])
      have hbt : t < 300000 := hb t (by simp)
      rw [runSysF_append, ih1 hbl, skip_normal t hbt]
    · intro hmem hb
      have hbl : ∀ x ∈ l, x < 360000 := fun x hx => hb x (by simp [hx])
      have hbt : t < 360000 := hb t (by simp)
      rcases (by simpa using hmem : 300000 ∈ l ∨ 300000 = t) with hin | heq
      · have ht3 : 300000 < t := hlt _ hin
        rw [runSysF_append, ih2 hin hbl]
        have : wsub t 300000 = t - 300000 :=
          wsub_eq_sub t 300000 (by omega) (by simp only [MILLIS_MOD]; omega)
        simp only [sysStep, this, FAILURE_SIGNAL_DURATION]
        rw [if_neg (by omega)]
      · subst heq
        have hbl' : ∀ x ∈ l, x < 300000 := fun x hx => hlt x hx
        rw [runSysF_append, ih1 hbl']
        have : wsub 300000 0 = 300000 :=
          wsub_eq_sub 300000 0 (by omega) (by simp only [MILLIS_MOD]; omega)
        simp only [sysStep, this, FAILURE_THRESHOLD]
        rw [if_pos (by omega)]
    · intro hm3 hm36 hb
      have hbl : ∀ x ∈ l, x < 660000 := fun x hx => hb x (by simp [hx])
      have hbt : t < 660000 := hb t (by simp)
      rcases (by simpa using hm36 : 360000 ∈ l ∨ 360000 = t) with hin | heq
      · have hm3l : 300000 ∈ l := by
          rcases (by simpa using hm3 : 300000 ∈ l ∨ 300000 = t) with h3 | h3
          · exact h3
          · exact absurd (hlt _ hin) (by omega)
        have ht36 : 360000 < t := hlt _ hin
        rw [runSysF_append, ih3 hm3l hin hbl]
        have : wsub t 360000 = t - 360000 :=
          wsub_eq_sub t 360000 (by omega) (by simp only [MILLIS_MOD]; omega)
        simp only [sysStep, this, FAILURE_COOLDOWN_DURATION]
        rw [if_neg (by omega)]
      · have hm3l : 300000 ∈ l := by
          rcases (by simpa using hm3 : 300000 ∈ l ∨ 300000 = t) with h3 | h3
          · exact h3
          · omega
        subst heq
        have hbl' : ∀ x ∈ l, x < 360000 := fun x hx => hlt x hx
        rw [runSysF_append, ih2 hm3l hbl']
        have : wsub 360000 300000 = 60000 :=
          wsub_eq_sub 360000 300000 (by omega)
            (by simp only [MILLIS_MOD]; omega)
        simp only [sysStep, this, FAILURE_SIGNAL_DURATION]
        rw [if_pos (by omega)]
    · intro hm3 hm36 hm66 hb
      rcases (by simpa using hm66 : 660000 ∈ l ∨ 660000 = t) with hin | heq
      · exact absurd (hlt _ hin) (by have := hb t (by simp); omega)
      · have hm3l : 300000 ∈ l := by
          rcases (by simpa using hm3 : 300000 ∈ l ∨ 300000 = t) with h3 | h3
          · exact h3
          · omega
        have hm36l : 360000 ∈ l := by
          rcases (by simpa using hm36 : 360000 ∈ l ∨ 360000 = t) with h3 | h3
          · exact h3
          · omega
        subst heq
        have hbl' : ∀ x ∈ l, x < 660000 := fun x hx => hlt x hx
        rw [runSysF_append, ih3 hm3l hm36l hbl']
        have : wsub 660000 360000 = 300000 :=
          wsub_eq_sub 660000 360000 (by omega)
            (by simp only [MILLIS_MOD]; omega)
        simp only [sysStep, this, FAILURE_COOLDOWN_DURATION]
        rw [if_pos (by omega)]

/-- Transport behaviour of a fully dead network on one tick: connect
fails, no response bytes. -/
def envNone : NetEnv := ⟨false, false, []⟩

/-- Transport behaviour on a tick where the connection gets established. -/
def envConn : NetEnv := ⟨true, false, []⟩

/-- Transport behaviour on a tick where response bytes are available. -/
def envResp (s : String) : NetEnv := ⟨false, true, s.toList⟩

/-- C1: Starting from SystemState = Normal with lastSuccessTime = 0 and
no successful probe outcome ever delivered, the Supervisor's state
reaches FailedSignal at exactly now = FAILURE_THRESHOLD, transitions to
Cooldown at now = FAILURE_THRESHOLD + FAILURE_SIGNAL_DURATION, and
returns to Normal at
now = FAILURE_THRESHOLD + FAILURE_SIGNAL_DURATION + FAILURE_COOLDOWN_DURATION,
for every tick sequence that visits those timestamps.  Stated over every
strictly increasing tick sequence delivering no success: any prefix
ending before a checkpoint is still in the earlier state, and the prefix
ending at each checkpoint has entered the new state on exactly that
tick. -/
theorem c1_failure_timeline
    (l : List (Nat × NetEnv))
    (hns : noSuccessRun (initialState 0) l = true)
    (hsorted : (l.map Prod.fst).Pairwise (· < ·)) :
    ((∀ t ∈ l.map Prod.fst, t < FAILURE_THRESHOLD) →
      (run (initialState 0) l).currentState = .STATE_NORMAL) ∧
    (FAILURE_THRESHOLD ∈ l.map Prod.fst →
      (∀ t ∈ l.map Prod.fst,
        t < FAILURE_THRESHOLD + FAILURE_SIGNAL_DURATION) →
      (run (initialState 0) l).currentState = .STATE_FAILED_SIGNAL) ∧
    (FAILURE_THRESHOLD ∈ l.map Prod.fst →
      FAILURE_THRESHOLD + FAILURE_SIGNAL_DURATION ∈ l.map Prod.fst →
      (∀ t ∈ l.map Prod.fst,
        t < FAILURE_THRESHOLD + FAILURE_SIGNAL_DURATION +
              FAILURE_COOLDOWN_DURATION) →
      (run (initialState 0) l).currentState = .STATE_COOLDOWN) ∧
    (FAILURE_THRESHOLD ∈ l.map Prod.fst →
      FAILURE_THRESHOLD + FAILURE_SIGNAL_DURATION ∈ l.map Prod.fst →
      FAILURE_THRESHOLD + FAILURE_SIGNAL_DURATION +
        FAILURE_COOLDOWN_DURATION ∈ l.map Prod.fst →
      (∀ t ∈ l.map Prod.fst,
        t ≤ FAILURE_THRESHOLD + FAILURE_SIGNAL_DURATION +
              FAILURE_COOLDOWN_DURATION) →
      (run (initialState 0) l).currentState = .STATE_NORMAL) := by
  have hrun := supFields_run l (initialState 0) hns
  have hinit : supFields (initialState 0) =
      (.STATE_NORMAL, 0, 0, 0) := rfl
  rw [hinit] at hrun
  have hcs : (run (initialState 0) l).currentState =
      (runSysF (.STATE_NORMAL, 0, 0, 0) (l.map Prod.fst)).1 := by
    rw [← hrun]
    rfl
  obtain ⟨p1, p2, p3, p4⟩ := runSysF_phases (l.map Prod.fst) hsorted
  refine ⟨fun h => ?_, fun h1 h2 => ?_, fun h1 h2 h3 => ?_,
    fun h1 h2 h3 h4 => ?_⟩
  · rw [hcs, p1 h]
  · rw [hcs, p2 h1 h2]
  · rw [hcs, p3 h1 h2 h3]
  · rw [hcs, p4 h1 h2 h3 h4]

/-- Witness for C1: the concrete dead-network tick sequence visiting
exactly the three checkpoint timestamps ends in Normal. -/
theorem c1_failure_timeline_witness :
    noSuccessRun (initialState 0)
        [(300000, envNone), (360000, envNone), (660000, envNone)] = true ∧
    (run (initialState 0)
        [(300000, envNone), (360000, envNone),
         (660000, envNone)]).currentState = .STATE_NORMAL :=
  ⟨by decide,
   (c1_failure_timeline _ (by decide) (by decide)).2.2.2
     (by decide) (by decide) (by decide) (by decide)⟩

/-- The pin/state coupling of the supervisor: the failure-state pin is
HIGH exactly outside Normal, and the failure-signal pin is HIGH only in
FailedSignal. -/
def pinInv (st : Monitor) : Prop :=
  (st.failureStatePin = true ↔ st.currentState ≠ .STATE_NORMAL) ∧
  (st.failureSignalPin = true → st.currentState = .STATE_FAILED_SIGNAL)

lemma pinInv_manageSystemState (now : Nat) (st : Monitor)
    (h : pinInv st) : pinInv (manageSystemState now st) := by
  obtain ⟨h1, h2⟩ := h
  cases hc : st.currentState <;>
      simp only [manageSystemState, hc] <;> split
  · exact ⟨by simp [pinInv], by simp⟩
  · exact ⟨h1, h2⟩
  · refine ⟨?_, by simp⟩
    rw [hc] at h1
    simp only [h1]
    simp
  · exact ⟨h1, h2⟩
  · refine ⟨by simp, ?_⟩
    intro hs
    rw [hc] at h2
    exact absurd (h2 hs) (by simp)
  · exact ⟨h1, h2⟩

lemma pinInv_handleSuccess (d now : Nat) (st : Monitor)
    (h : pinInv st) : pinInv (handleSuccess d now st).1 := by
  unfold handleSuccess
  split
  · exact ⟨by simp [pinInv], by simp⟩
  · exact ⟨h.1, h.2⟩

lemma pinInv_managePingProcess (now : Nat) (e : NetEnv) (st : Monitor)
    (h : pinInv st) : pinInv (managePingProcess now e st).1 := by
  cases hps : st.pingState <;> simp only [managePingProcess, hps]
  case PING_IDLE => split
                    · exact ⟨h.1, h.2⟩
                    · exact h
  case PING_CONNECTING => split
                          · exact ⟨h.1, h.2⟩
                          · split
                            · exact ⟨h.1, h.2⟩
                            · exact h
  case PING_SENDING => exact ⟨h.1, h.2⟩
  case PING_READING =>
    split
    · split
      · have hh := pinInv_handleSuccess
          (wsub now st.pingTransactionStartTime) now st h
        exact ⟨hh.1, hh.2⟩
      · exact ⟨h.1, h.2⟩
    · split
      · exact ⟨h.1, h.2⟩
      · exact h
  case PING_DONE => exact ⟨h.1, h.2⟩

lemma pinInv_manageRecoveryPulse (now : Nat) (st : Monitor)
    (h : pinInv st) : pinInv (manageRecoveryPulse now st) := by
  unfold manageRecoveryPulse
  split
  · exact ⟨h.1, h.2⟩
  · exact h

lemma pinInv_managePingingPulse (now : Nat) (st : Monitor)
    (h : pinInv st) : pinInv (managePingingPulse now st) := by
  unfold managePingingPulse
  split
  · exact ⟨h.1, h.2⟩
  · exact h

lemma pinInv_loopTick (now : Nat) (e : NetEnv) (st : Monitor)
    (h : pinInv st) : pinInv (loopTick now e st) :=
  pinInv_managePingingPulse _ _
    (pinInv_manageRecoveryPulse _ _
      (pinInv_managePingProcess _ _ _
        (pinInv_manageSystemState _ _ h)))

lemma pinInv_run (l : List (Nat × NetEnv)) (st : Monitor)
    (h : pinInv st) : pinInv (run st l) := by
  induction l generalizing st with
  | nil => exact h
  | cons p rest ih =>
    obtain ⟨n, e⟩ := p
    exact ih _ (pinInv_loopTick n e st h)

/-- C2: For every sequence of probe outcomes and ticks, the
failure-state pin is HIGH if and only if SystemState ≠ Normal, and the
failure-signal pin is HIGH only while SystemState = FailedSignal; this
holds after every tick, including the recovery path. -/
theorem c2_failure_pins_track_state (t0 : Nat)
    (l : List (Nat × NetEnv)) :
    ((run (initialState t0) l).failureStatePin = true ↔
      (run (initialState t0) l).currentState ≠ .STATE_NORMAL) ∧
    ((run (initialState t0) l).failureSignalPin = true →
      (run (initialState t0) l).currentState = .STATE_FAILED_SIGNAL) :=
  pinInv_run l (initialState t0) ⟨by simp [initialState], by simp [initialState]⟩

lemma wsub_self (a : Nat) : wsub a a = 0 := by
  simp only [wsub, MILLIS_MOD]
  omega

lemma managePingProcess_success_eq (now : Nat) (e : NetEnv) (st : Monitor)
    (hps : st.pingState = .PING_READING)
    (hav : e.availResult = true)
    (hok : statusOk (readBytesUntil e.response) = true) :
    managePingProcess now e st =
      ({ (handleSuccess (wsub now st.pingTransactionStartTime) now st).1
          with pingState := .PING_DONE, pingStateStartTime := now },
       some ⟨true, some (wsub now st.pingTransactionStartTime)⟩) := by
  simp only [managePingProcess, hps, hav, hok, if_true]

lemma handleSuccess_recovery_eq (d now : Nat) (st : Monitor)
    (hsc : st.currentState = .STATE_FAILED_SIGNAL ∨
           st.currentState = .STATE_COOLDOWN) :
    handleSuccess d now st =
      ({ st with currentState := .STATE_NORMAL,
                 failureStatePin := false,
                 failureSignalPin := false,
                 recoveryPulseActive := true,
                 recoverySignalPin := true,
                 recoveryPulseStartTime := now,
                 lastSuccessfulConnectionTime := now },
       some (wsub now st.lastSuccessfulConnectionTime)) := by
  unfold handleSuccess
  rw [if_pos hsc]

/-- C3: Whenever a successful probe outcome arrives while
SystemState ∈ {FailedSignal, Cooldown}, the same tick sets
SystemState = Normal, drives both failure pins LOW, arms the recovery
pulse (which `manageRecoveryPulse` will hold for
RECOVERY_PULSE_DURATION, and which survives the rest of the same tick),
and the reported outage duration equals now − lastSuccessTime computed
with the pre-update value of lastSuccessTime; lastSuccessTime is then
set to now.  The first conjunct also records that a success updates
lastSuccessTime to now unconditionally, in every supervisor state. -/
theorem c3_success_recovery (now : Nat) (e : NetEnv) (st : Monitor)
    (hps : st.pingState = .PING_READING)
    (hav : e.availResult = true)
    (hok : statusOk (readBytesUntil e.response) = true) :
    (managePingProcess now e st).1.lastSuccessfulConnectionTime = now ∧
    (st.currentState = .STATE_FAILED_SIGNAL ∨
     st.currentState = .STATE_COOLDOWN →
      (managePingProcess now e st).1.currentState = .STATE_NORMAL ∧
      (managePingProcess now e st).1.failureStatePin = false ∧
      (managePingProcess now e st).1.failureSignalPin = false ∧
      (managePingProcess now e st).1.recoveryPulseActive = true ∧
      (managePingProcess now e st).1.recoverySignalPin = true ∧
      (managePingProcess now e st).1.recoveryPulseStartTime = now ∧
      (handleSuccess (wsub now st.pingTransactionStartTime) now st).2 =
        some (wsub now st.lastSuccessfulConnectionTime) ∧
      (manageRecoveryPulse now
        (managePingProcess now e st).1).recoverySignalPin = true) := by
  rw [managePingProcess_success_eq now e st hps hav hok]
  constructor
  · unfold handleSuccess
    split <;> rfl
  · intro hsc
    rw [handleSuccess_recovery_eq _ now st hsc]
    refine ⟨rfl, rfl, rfl, rfl, rfl, rfl, rfl, ?_⟩
    unfold manageRecoveryPulse
    rw [if_neg]
    intro hcontra
    rw [wsub_self] at hcontra
    simp only [RECOVERY_PULSE_DURATION] at hcontra
    omega

/-- A concrete state: in Cooldown after an outage that began long ago
(last success at 100), mid-read of a probe that started at 399990. -/
def cooldownReadingState : Monitor :=
  { initialState 0 with
    pingState := .PING_READING,
    currentState := .STATE_COOLDOWN,
    lastSuccessfulConnectionTime := 100,
    pingTransactionStartTime := 399990 }

/-- Witness for C3: a success at now = 400000 while in Cooldown with
lastSuccessTime = 100 reports an outage of 399900 and returns to
Normal. -/
theorem c3_success_recovery_witness :
    ((managePingProcess 400000 (envResp "HTTP/1.1 200 OK\r")
        cooldownReadingState).1.currentState = .STATE_NORMAL) ∧
    ((handleSuccess (wsub 400000 399990) 400000
        cooldownReadingState).2 = some 399900) := by
  have h := c3_success_recovery 400000 (envResp "HTTP/1.1 200 OK\r")
    cooldownReadingState rfl rfl (by decide)
  have h2 := h.2 (Or.inr rfl)
  refine ⟨h2.1, ?_⟩
  have h3 := h2.2.2.2.2.2.2.1
  have hp : cooldownReadingState.pingTransactionStartTime = 399990 := rfl
  have hl : cooldownReadingState.lastSuccessfulConnectionTime = 100 := rfl
  rw [hp, hl] at h3
  rw [h3]
  decide

/-- C4: For every pulse signal (recovery and ping-activity), a tick at a
time strictly inside the window leaves the pulse (and its pin) exactly
as it was; a tick at or past the window boundary deactivates the pulse
and drives the line LOW; and each activation site (the recovery branch
of `handleSuccess`, the Idle→Connecting branch of `managePingProcess`)
sets the start time to now even when the pulse was already active, so
re-activation restarts the window. -/
theorem c4_pulse_windows (now d : Nat) (e : NetEnv) (st : Monitor) :
    (st.recoveryPulseActive = true →
      wsub now st.recoveryPulseStartTime < RECOVERY_PULSE_DURATION →
      manageRecoveryPulse now st = st) ∧
    (st.recoveryPulseActive = true →
      wsub now st.recoveryPulseStartTime ≥ RECOVERY_PULSE_DURATION →
      (manageRecoveryPulse now st).recoveryPulseActive = false ∧
      (manageRecoveryPulse now st).recoverySignalPin = false) ∧
    (st.pingingPulseActive = true →
      wsub now st.pingingPulseStartTime < PINGING_PULSE_DURATION →
      managePingingPulse now st = st) ∧
    (st.pingingPulseActive = true →
      wsub now st.pingingPulseStartTime ≥ PINGING_PULSE_DURATION →
      (managePingingPulse now st).pingingPulseActive = false ∧
      (managePingingPulse now st).pingingPin = false) ∧
    (st.currentState = .STATE_FAILED_SIGNAL ∨
     st.currentState = .STATE_COOLDOWN →
      (handleSuccess d now st).1.recoveryPulseActive = true ∧
      (handleSuccess d now st).1.recoverySignalPin = true ∧
      (handleSuccess d now st).1.recoveryPulseStartTime = now) ∧
    (st.pingState = .PING_IDLE →
      st.currentState ≠ .STATE_FAILED_SIGNAL →
      wsub now st.pingStateStartTime ≥ PING_INTERVAL →
      (managePingProcess now e st).1.pingingPulseActive = true ∧
      (managePingProcess now e st).1.pingingPin = true ∧
      (managePingProcess now e st).1.pingingPulseStartTime = now) := by
  refine ⟨?_, ?_, ?_, ?_, ?_, ?_⟩
  · intro ha hlt
    unfold manageRecoveryPulse
    rw [if_neg]
    rintro ⟨-, hge⟩
    omega
  · intro ha hge
    unfold manageRecoveryPulse
    rw [if_pos ⟨ha, hge⟩]
    exact ⟨rfl, rfl⟩
  · intro ha hlt
    unfold managePingingPulse
    rw [if_neg]
    rintro ⟨-, hge⟩
    omega
  · intro ha hge
    unfold managePingingPulse
    rw [if_pos ⟨ha, hge⟩]
    exact ⟨rfl, rfl⟩
  · intro hsc
    rw [handleSuccess_recovery_eq d now st hsc]
    exact ⟨rfl, rfl, rfl⟩
  · intro hps hgate hint
    simp only [managePingProcess, hps]
    rw [if_pos ⟨hgate, hint⟩]
    exact ⟨rfl, rfl, rfl⟩

/-- A concrete state with both pulses freshly armed at time 1000. -/
def pulsesArmedState : Monitor :=
  { initialState 0 with
    recoveryPulseActive := true,
    recoverySignalPin := true,
    recoveryPulseStartTime := 1000,
    pingingPulseActive := true,
    pingingPin := true,
    pingingPulseStartTime := 1000 }

/-- Witness for C4: the recovery pulse armed at 1000 is untouched by a
tick at 2000 and deactivated by a tick at 6001. -/
theorem c4_pulse_windows_witness :
    manageRecoveryPulse 2000 pulsesArmedState = pulsesArmedState ∧
    (manageRecoveryPulse 6001 pulsesArmedState).recoveryPulseActive =
      false :=
  ⟨(c4_pulse_windows 2000 0 envNone pulsesArmedState).1 rfl (by decide),
   ((c4_pulse_windows 6001 0 envNone pulsesArmedState).2.1 rfl
     (by decide)).1⟩

lemma manageSystemState_cursor (now : Nat) (st : Monitor) :
    (manageSystemState now st).currentTargetIndex =
      st.currentTargetIndex := by
  cases h : st.currentState <;>
    simp only [manageSystemState, h] <;> split <;> rfl

lemma handleSuccess_cursor (d now : Nat) (st : Monitor) :
    (handleSuccess d now st).1.currentTargetIndex =
      st.currentTargetIndex := by
  unfold handleSuccess
  split <;> rfl

lemma managePingProcess_cursor (now : Nat) (e : NetEnv) (st : Monitor) :
    (managePingProcess now e st).1.currentTargetIndex =
      if st.pingState = .PING_DONE
      then (st.currentTargetIndex + 1) % numTargets
      else st.currentTargetIndex := by
  by_cases hd : st.pingState = PingState.PING_DONE
  · rw [if_pos hd]
    simp only [managePingProcess, hd]
  · rw [if_neg hd]
    cases hps : st.pingState
    · simp only [managePingProcess, hps]
      split <;> rfl
    · simp only [managePingProcess, hps]
      split
      · rfl
      · split <;> rfl
    · simp only [managePingProcess, hps]
    · simp only [managePingProcess, hps]
      split
      · split
        · exact handleSuccess_cursor _ _ _
        · rfl
      · split <;> rfl
    · exact absurd hps hd

lemma manageRecoveryPulse_cursor (now : Nat) (st : Monitor) :
    (manageRecoveryPulse now st).currentTargetIndex =
      st.currentTargetIndex := by
  unfold manageRecoveryPulse
  split <;> rfl

lemma managePingingPulse_cursor (now : Nat) (st : Monitor) :
    (managePingingPulse now st).currentTargetIndex =
      st.currentTargetIndex := by
  unfold managePingingPulse
  split <;> rfl

lemma loopTick_cursor (now : Nat) (e : NetEnv) (st : Monitor) :
    (loopTick now e st).currentTargetIndex =
      if st.pingState = .PING_DONE
      then (st.currentTargetIndex + 1) % numTargets
      else st.currentTargetIndex := by
  unfold loopTick
  rw [managePingingPulse_cursor, manageRecoveryPulse_cursor,
    managePingProcess_cursor, manageSystemState_pingState,
    manageSystemState_cursor]

lemma run_cursor (l : List (Nat × NetEnv)) (st : Monitor)
    (h : st.currentTargetIndex < numTargets) :
    (run st l).currentTargetIndex =
      (st.currentTargetIndex + doneCount st l) % numTargets := by
  have hN : numTargets = 4 := rfl
  induction l generalizing st with
  | nil =>
    simp only [run, doneCount]
    rw [hN] at *
    omega
  | cons p rest ih =>
    obtain ⟨n, e⟩ := p
    have hcur := loopTick_cursor n e st
    have hrun : run st ((n, e) :: rest) = run (loopTick n e st) rest := rfl
    by_cases hd : st.pingState = PingState.PING_DONE
    · rw [hrun, ih (loopTick n e st)
        (by rw [hcur, if_pos hd, hN]; omega),
        hcur, if_pos hd]
      simp only [doneCount, if_pos hd]
      rw [hN] at *
      omega
    · rw [hrun, ih (loopTick n e st)
        (by rw [hcur, if_neg hd]; exact h),
        hcur, if_neg hd]
      simp only [doneCount, if_neg hd]
      rw [hN] at *
      omega

/-- C5: The target-rotation cursor advances by exactly one modulo the
number of targets on each tick that completes a probe attempt (the
PING_DONE cleanup, reached by every path: success, non-2xx/3xx status,
connect timeout, response timeout), is untouched on every other tick,
and along any run from the initial state equals the number of completed
probes modulo numTargets — hence it returns to 0 after N completed
probes and always satisfies cursor < numTargets. -/
theorem c5_cursor_rotation (now : Nat) (e : NetEnv) (st : Monitor)
    (t0 : Nat) (l : List (Nat × NetEnv)) :
    (st.pingState = .PING_DONE →
      (loopTick now e st).currentTargetIndex =
        (st.currentTargetIndex + 1) % numTargets) ∧
    (st.pingState ≠ .PING_DONE →
      (loopTick now e st).currentTargetIndex = st.currentTargetIndex) ∧
    (st.currentTargetIndex < numTargets →
      (loopTick now e st).currentTargetIndex < numTargets) ∧
    ((run (initialState t0) l).currentTargetIndex =
      doneCount (initialState t0) l % numTargets) := by
  have hN : numTargets = 4 := rfl
  have hcur := loopTick_cursor now e st
  refine ⟨?_, ?_, ?_, ?_⟩
  · intro hd
    rw [hcur, if_pos hd]
  · intro hd
    rw [hcur, if_neg hd]
  · intro h
    by_cases hd : st.pingState = PingState.PING_DONE
    · rw [hcur, if_pos hd, hN]
      omega
    · rw [hcur, if_neg hd]
      exact h
  · have h0 : (initialState t0).currentTargetIndex = 0 := rfl
    have := run_cursor l (initialState t0) (by rw [h0, hN]; omega)
    rw [this, h0]
    simp

/-- A concrete state about to run the PING_DONE cleanup with the cursor
on the last target. -/
def doneCleanupState : Monitor :=
  { initialState 0 with pingState := .PING_DONE, currentTargetIndex := 3 }

/-- Witness for C5: the Done tick advances the cursor from 3 back to
(3 + 1) % numTargets = 0. -/
theorem c5_cursor_rotation_witness :
    (loopTick 0 envNone doneCleanupState).currentTargetIndex =
      (3 + 1) % numTargets ∧ (3 + 1) % numTargets = 0 :=
  ⟨(c5_cursor_rotation 0 envNone doneCleanupState 0 []).1 rfl, by decide⟩

/-- A run in which an attempt starts at t = 5 (Idle→Connecting),
completes with a 404 at t = 8, and finishes its Done cleanup at t = 9:
ticks at 5, 6, 7, 8, 9, then again at 30005. -/
def staleStartTrace : List (Nat × NetEnv) :=
  [(5, envNone), (6, envConn), (7, envNone),
   (8, envResp "HTTP/1.1 404 Not Found\r"), (9, envNone),
   (30005, envNone)]

/-- Counterexample to C6 as stated: the previous attempt left Idle at
t = 5 (first two conjuncts), the system never enters FailedSignal, and
at the tick now = 30005 we have now − 5 ≥ PING_INTERVAL with the gate
open — yet Idle→Connecting does not fire (the prober is still
PING_IDLE), because the code measures the interval from the Done
cleanup tick (t = 9), not from the start of the previous attempt. -/
theorem c6_counterexample :
    (run (initialState 0) (staleStartTrace.take 1)).pingState =
      .PING_CONNECTING ∧
    (run (initialState 0)
      (staleStartTrace.take 1)).pingTransactionStartTime = 5 ∧
    (run (initialState 0) staleStartTrace).pingTransactionStartTime = 5 ∧
    (run (initialState 0) staleStartTrace).currentState ≠
      .STATE_FAILED_SIGNAL ∧
    wsub 30005 5 ≥ PING_INTERVAL ∧
    (run (initialState 0) staleStartTrace).pingState = .PING_IDLE := by
  refine ⟨by decide, by decide, by decide, by decide, by decide, by decide⟩

/-- C6 (amended): the Idle→Connecting transition fires exactly when the
gate is open (SystemState ≠ FailedSignal) and
now − pingStateStartTime ≥ PING_INTERVAL, where pingStateStartTime was
last reset on the tick that ran the previous attempt's Done cleanup
(re-entering Idle) — not at the start of the previous attempt; while
SystemState = FailedSignal no new attempt starts, and an attempt already
in flight evolves independently of SystemState. -/
theorem c6_idle_gate (now : Nat) (e : NetEnv) (st : Monitor)
    (c : SystemState) :
    (st.pingState = .PING_IDLE →
      ((managePingProcess now e st).1.pingState = .PING_CONNECTING ↔
        (st.currentState ≠ .STATE_FAILED_SIGNAL ∧
         wsub now st.pingStateStartTime ≥ PING_INTERVAL))) ∧
    (st.pingState = .PING_IDLE →
      st.currentState = .STATE_FAILED_SIGNAL →
      (managePingProcess now e st).1.pingState = .PING_IDLE) ∧
    (st.pingState ≠ .PING_IDLE →
      (managePingProcess now e
        { st with currentState := c }).1.pingState =
        (managePingProcess now e st).1.pingState) ∧
    (st.pingState = .PING_DONE →
      (managePingProcess now e st).1.pingState = .PING_IDLE ∧
      (managePingProcess now e st).1.pingStateStartTime = now) := by
  refine ⟨?_, ?_, ?_, ?_⟩
  · intro hps
    simp only [managePingProcess, hps]
    split
    · rename_i hcond
      exact iff_of_true rfl hcond
    · rename_i hcond
      refine iff_of_false ?_ hcond
      show st.pingState = .PING_CONNECTING → False
      rw [hps]
      simp
  · intro hps hcs
    simp only [managePingProcess, hps]
    rw [if_neg (by rintro ⟨hne, -⟩; exact hne hcs)]
    show st.pingState = .PING_IDLE
    exact hps
  · intro hps
    have hps2 : ({ st with currentState := c } : Monitor).pingState =
        st.pingState := rfl
    cases hpv : st.pingState
    · exact absurd hpv hps
    · simp only [managePingProcess, hps2, hpv]
      split
      · rfl
      · split
        · rfl
        · exact hpv.symm
    · simp only [managePingProcess, hps2, hpv]
    · simp only [managePingProcess, hps2, hpv]
      split
      · split <;> rfl
      · split
        · rfl
        · exact hpv.symm
    · simp only [managePingProcess, hps2, hpv]
  · intro hps
    constructor <;> simp [managePingProcess, hps]

/-- A concrete idle state just after a Done cleanup at t = 9. -/
def idleAfterCleanupState : Monitor :=
  { initialState 0 with pingStateStartTime := 9 }

/-- Witness for C6 (amended): with the cleanup timer at 9 and the gate
open, the tick at now = 30009 (interval elapsed) enters Connecting. -/
theorem c6_idle_gate_witness :
    (managePingProcess 30009 envNone idleAfterCleanupState).1.pingState =
      .PING_CONNECTING :=
  ((c6_idle_gate 30009 envNone idleAfterCleanupState
      .STATE_NORMAL).1 rfl).mpr ⟨by decide, by decide⟩

/-- Modelled from the spec: its success rule read as written — "the
status line's protocol/code prefix matches HTTP/1.1 2 or HTTP/1.1 3",
i.e. an anchored match at the start of the line — for comparison with
the code's `strstr`-based `statusOk`. -/
def specStatusRule (statusLine : List Char) : Bool :=
  startsWithPat ("HTTP/1.1 2".toList) statusLine ||
  startsWithPat ("HTTP/1.1 3".toList) statusLine

/-- A concrete state mid-read of a probe whose attempt started at
t = 100, in Normal supervisor state. -/
def readingState : Monitor :=
  { initialState 0 with
    pingState := .PING_READING,
    pingStateStartTime := 100,
    pingTransactionStartTime := 100 }

/-- Counterexample to C7 as stated: for the response line
"x HTTP/1.1 200 OK" the code judges the probe a success (strstr finds
the marker mid-line), although the line's protocol/code prefix does not
match "HTTP/1.1 2" or "HTTP/1.1 3". -/
theorem c7_counterexample :
    (managePingProcess 150 (envResp "x HTTP/1.1 200 OK\r")
        readingState).2 = some ⟨true, some 50⟩ ∧
    specStatusRule
      (readBytesUntil (("x HTTP/1.1 200 OK\r").toList)) = false := by
  refine ⟨by decide, by decide⟩

/-- C7 (amended): a completed probe with an available response is
judged a success if and only if the first response line (truncated to
89 bytes) contains "HTTP/1.1 2" or "HTTP/1.1 3" as a substring
(`strstr`), not necessarily as a prefix; every other status line, the
response-timeout path and the connect-timeout path all yield the
identical outcome ProbeOutcome{success := false, latency := none}, with
no distinction among failure kinds surfaced to the Supervisor. -/
theorem c7_status_rule (now : Nat) (e : NetEnv) (st : Monitor) :
    (st.pingState = .PING_READING → e.availResult = true →
      (managePingProcess now e st).2 =
        some ⟨statusOk (readBytesUntil e.response),
          if statusOk (readBytesUntil e.response) = true
          then some (wsub now st.pingTransactionStartTime)
          else none⟩) ∧
    (st.pingState = .PING_READING → e.availResult = false →
      wsub now st.pingStateStartTime ≥ HTTP_TIMEOUT →
      (managePingProcess now e st).2 = some ⟨false, none⟩) ∧
    (st.pingState = .PING_CONNECTING → e.connectResult = false →
      wsub now st.pingStateStartTime ≥ HTTP_TIMEOUT →
      (managePingProcess now e st).2 = some ⟨false, none⟩) := by
  refine ⟨?_, ?_, ?_⟩
  · intro hps hav
    by_cases hok : statusOk (readBytesUntil e.response) = true
    · simp [managePingProcess, hps, hav, hok]
    · rw [Bool.not_eq_true] at hok
      simp [managePingProcess, hps, hav, hok]
  · intro hps hav ht
    simp [managePingProcess, hps, hav, ht]
  · intro hps hconn ht
    simp [managePingProcess, hps, hconn, ht]

/-- Witness for C7 (amended): a 404 status line yields the uniform
failure outcome. -/
theorem c7_status_rule_witness :
    (managePingProcess 150 (envResp "HTTP/1.1 404 Not Found\r")
        readingState).2 = some ⟨false, none⟩ := by
  have h := (c7_status_rule 150 (envResp "HTTP/1.1 404 Not Found\r")
    readingState).1 rfl rfl
  rw [h]
  decide

lemma handleSuccess_transactionStart (d now : Nat) (st : Monitor) :
    (handleSuccess d now st).1.pingTransactionStartTime =
      st.pingTransactionStartTime := by
  unfold handleSuccess
  split <;> rfl

/-- C8: For every successful probe, the latency reported with the
success outcome equals now − pingTransactionStartTime, and
pingTransactionStartTime is set exactly when the attempt leaves Idle
and is untouched during Connecting, Sending, Reading and Done — so the
latency covers the connect, send and read phases together. -/
theorem c8_latency_full_transaction (now : Nat) (e : NetEnv)
    (st : Monitor) :
    (st.pingState = .PING_READING → e.availResult = true →
      statusOk (readBytesUntil e.response) = true →
      (managePingProcess now e st).2 =
        some ⟨true, some (wsub now st.pingTransactionStartTime)⟩) ∧
    (st.pingState = .PING_IDLE →
      st.currentState ≠ .STATE_FAILED_SIGNAL →
      wsub now st.pingStateStartTime ≥ PING_INTERVAL →
      (managePingProcess now e st).1.pingTransactionStartTime = now) ∧
    (st.pingState ≠ .PING_IDLE →
      (managePingProcess now e st).1.pingTransactionStartTime =
        st.pingTransactionStartTime) := by
  refine ⟨?_, ?_, ?_⟩
  · intro hps hav hok
    rw [managePingProcess_success_eq now e st hps hav hok]
  · intro hps hg hi
    simp only [managePingProcess, hps]
    rw [if_pos ⟨hg, hi⟩]
  · intro hps
    cases hpv : st.pingState
    · exact absurd hpv hps
    · simp only [managePingProcess, hpv]
      split
      · rfl
      · split <;> rfl
    · simp [managePingProcess, hpv]
    · simp only [managePingProcess, hpv]
      split
      · split
        · exact handleSuccess_transactionStart _ _ _
        · rfl
      · split <;> rfl
    · simp [managePingProcess, hpv]

/-- Witness for C8: a success read at t = 150 for an attempt that left
Idle at t = 100 reports latency 50. -/
theorem c8_latency_full_transaction_witness :
    (managePingProcess 150 (envResp "HTTP/1.1 200 OK\r")
        readingState).2 = some ⟨true, some 50⟩ := by
  have h := (c8_latency_full_transaction 150
    (envResp "HTTP/1.1 200 OK\r") readingState).1 rfl rfl (by decide)
  rw [h]
  decide

/-- C9: Every duration comparison in the core has the form
(now − timestamp) ≥ threshold over `wsub`, the unsigned wrapping
subtraction; for any pair of clock readings whose true elapsed time d
is below the clock modulus, `wsub` recovers d exactly, so each
comparison gives the correct elapsed-time answer even when the counter
wrapped between the readings — instantiated here for the failure
threshold in `manageSystemState` and the recovery pulse duration in
`manageRecoveryPulse`. -/
theorem c9_wrap_safe_comparisons (t d thr : Nat) (st : Monitor)
    (hd : d < MILLIS_MOD) :
    wsub ((t + d) % MILLIS_MOD) (t % MILLIS_MOD) = d ∧
    (wsub ((t + d) % MILLIS_MOD) (t % MILLIS_MOD) ≥ thr ↔ d ≥ thr) ∧
    (st.currentState = .STATE_NORMAL →
      st.lastSuccessfulConnectionTime = t % MILLIS_MOD →
      ((manageSystemState ((t + d) % MILLIS_MOD) st).currentState =
          .STATE_FAILED_SIGNAL ↔ FAILURE_THRESHOLD ≤ d)) ∧
    (st.recoveryPulseActive = true →
      st.recoveryPulseStartTime = t % MILLIS_MOD →
      ((manageRecoveryPulse ((t + d) % MILLIS_MOD)
          st).recoveryPulseActive = false ↔
        RECOVERY_PULSE_DURATION ≤ d)) := by
  have key : wsub ((t + d) % MILLIS_MOD) (t % MILLIS_MOD) = d := by
    simp only [wsub, MILLIS_MOD] at *
    omega
  refine ⟨key, by rw [key], ?_, ?_⟩
  · intro hcs hls
    simp only [manageSystemState, hcs, hls]
    rw [key]
    by_cases hge : FAILURE_THRESHOLD ≤ d
    · rw [if_pos hge]
      exact iff_of_true rfl hge
    · rw [if_neg hge]
      exact iff_of_false (by rw [hcs]; simp) hge
  · intro hra hrs
    simp only [manageRecoveryPulse, hrs]
    rw [key]
    by_cases hge : RECOVERY_PULSE_DURATION ≤ d
    · rw [if_pos ⟨hra, hge⟩]
      exact iff_of_true rfl hge
    · rw [if_neg (by rintro ⟨-, hh⟩; exact hge hh)]
      exact iff_of_false (by rw [hra]; simp) hge

/-- A state whose last success and recovery pulse start were both
recorded at clock reading 4294967000, shortly before the 2^32 wrap. -/
def nearWrapState : Monitor :=
  { initialState 0 with
    lastSuccessfulConnectionTime := 4294967000,
    recoveryPulseActive := true,
    recoverySignalPin := true,
    recoveryPulseStartTime := 4294967000 }

/-- Witness for C9: 300000 ms after reading 4294967000 the clock has
wrapped to 299704, and `manageSystemState` still (correctly) declares
the failure threshold reached. -/
theorem c9_wrap_safe_comparisons_witness :
    (manageSystemState ((4294967000 + 300000) % MILLIS_MOD)
        nearWrapState).currentState = .STATE_FAILED_SIGNAL ∧
    (4294967000 + 300000) % MILLIS_MOD = 299704 := by
  constructor
  · exact ((c9_wrap_safe_comparisons 4294967000 300000 0 nearWrapState
      (by decide)).2.2.1 rfl (by decide)).mpr (by decide)
  · decide

lemma takeWhile_take_comm (p : Char → Bool) (n : Nat) (l : List Char) :
    (l.take n).takeWhile p = (l.takeWhile p).take n := by
  induction l generalizing n with
  | nil => simp
  | cons a as ih =>
    cases n with
    | zero => simp
    | succ m =>
      rw [List.take_succ_cons, List.takeWhile_cons, List.takeWhile_cons]
      by_cases hp : p a = true
      · simp [hp, ih]
      · simp [hp]

/-- The full response stream of which the status check can only see a
truncated prefix: 89 filler bytes followed by a well-formed marker, so
the marker lies entirely beyond byte 89 of the line. -/
def longResp : List Char :=
  List.replicate 89 'x' ++ ("HTTP/1.1 200 OK".toList)

/-- C10: the `readBytesUntil` of the sketch reads at most 89 bytes of
the first response line into the 90-byte buffer (so the NUL terminator
at index ≤ 89 is always in bounds), the success/failure decision
depends only on the first 89 bytes of the response, and a line whose
"HTTP/1.1 2" / "HTTP/1.1 3" marker lies entirely beyond byte 89 is
judged a failure even though the marker is present in the full
response. -/
theorem c10_status_line_truncation (resp : List Char) :
    (readBytesUntil resp).length ≤ 89 ∧
    readBytesUntil resp = readBytesUntil (resp.take 89) ∧
    statusOk (readBytesUntil longResp) = false ∧
    hasSub ("HTTP/1.1 2".toList) longResp = true := by
  refine ⟨?_, ?_, by decide, by decide⟩
  · unfold readBytesUntil
    exact List.length_take_le _ _
  · unfold readBytesUntil
    rw [takeWhile_take_comm, List.take_take]
    norm_num

end NetReset
